import Mathlib

/-!
Shallow embedding of the dialogue-simulation core of the multi-player
D&D notebook: the DialogueAgent and DialogueSimulator classes, the
round-robin select_next_speaker policy, and the relevance_score_fn
similarity conversion used by the memory retriever.
-/

/-- Embeds the Python class DialogueAgent.  The external chat model is
modelled as a pure function taking the system-message content and the
human-message content and returning the generated reply text.  The field
pfx embeds the Python attribute assigned in __init__ from the f-string
of the agent's name followed by a colon and a space. -/
structure DialogueAgent where
  name : String
  system_message : String
  model : String → String → String
  pfx : String
  message_history : List String

/-- Embeds DialogueAgent.reset: sets message_history to the one-element
list holding the sentinel line. -/
def DialogueAgent.reset (a : DialogueAgent) : DialogueAgent :=
  { a with message_history := ["Here is the conversation so far."] }

/-- Embeds DialogueAgent.__init__: stores the identity fields, sets the
pfx attribute to the name followed by a colon and a space, and calls
reset, which installs the initial message_history. -/
def DialogueAgent.init (name system_message : String)
    (model : String → String → String) : DialogueAgent :=
  DialogueAgent.reset
    { name := name, system_message := system_message, model := model,
      pfx := name ++ ": ", message_history := [] }

/-- Embeds DialogueAgent.send: applies the chat model to the system
message and the newline-joined message_history with the pfx line
appended, returning the model's reply. -/
def DialogueAgent.send (a : DialogueAgent) : String :=
  a.model a.system_message
    (String.intercalate "\n" (a.message_history ++ [a.pfx]))

/-- Embeds DialogueAgent.receive: appends the single entry formed from
the speaker name, a colon and a space, and the message, to
message_history. -/
def DialogueAgent.receive (a : DialogueAgent) (name message : String) :
    DialogueAgent :=
  { a with message_history :=
      a.message_history ++ [name ++ ": " ++ message] }

/-- Python list indexing xs[i]: non-negative indices index from the
front, indices in [-len, -1] index from the back, and anything else
raises IndexError, modelled as none. -/
def pyGet {α : Type} (xs : List α) (i : Int) : Option α :=
  if 0 ≤ i then xs.get? i.toNat
  else if 0 ≤ (xs.length : Int) + i then xs.get? ((xs.length : Int) + i).toNat
  else none

/-- Embeds the Python class DialogueSimulator.  The private counter is
kept as a natural number: it starts at 0 and is only ever incremented.
A selection function that raises is modelled as returning none. -/
structure DialogueSimulator where
  agents : List DialogueAgent
  _step : Nat
  select_next_speaker : Nat → List DialogueAgent → Option Int

/-- Embeds DialogueSimulator.__init__: stores the agent list and the
selection function and sets the counter to 0.  The source performs no
validation of the agent list. -/
def DialogueSimulator.init (agents : List DialogueAgent)
    (selection_function : Nat → List DialogueAgent → Option Int) :
    DialogueSimulator :=
  { agents := agents, _step := 0, select_next_speaker := selection_function }

/-- Embeds DialogueSimulator.reset: calls reset on every agent.  The
source does not touch the step counter here. -/
def DialogueSimulator.reset (s : DialogueSimulator) : DialogueSimulator :=
  { s with agents := s.agents.map DialogueAgent.reset }

/-- Embeds DialogueSimulator.inject: every agent receives the pair of
name and message, then the counter is incremented. -/
def DialogueSimulator.inject (s : DialogueSimulator) (name message : String) :
    DialogueSimulator :=
  { s with agents := s.agents.map (fun a => a.receive name message),
           _step := s._step + 1 }

/-- Embeds DialogueSimulator.step: choose the next speaker, have it
send, then every agent receives the message and the counter advances.
If the selection function raises, or the chosen index is out of range
(Python IndexError on the list access), the exception propagates before
any mutation, so the unchanged state is returned with none. -/
def DialogueSimulator.step (s : DialogueSimulator) :
    DialogueSimulator × Option (String × String) :=
  match s.select_next_speaker s._step s.agents with
  | none => (s, none)
  | some idx =>
    match pyGet s.agents idx with
    | none => (s, none)
    | some speaker =>
      let message := speaker.send
      ({ s with
          agents := s.agents.map (fun a => a.receive speaker.name message),
          _step := s._step + 1 },
       some (speaker.name, message))

/-- Embeds the notebook's select_next_speaker: even steps pick the
storyteller index 0; odd steps pick the floor of step over 2, modulo one
less than the agent count, plus 1.  The divisor is Python integer
subtraction, the modulo is Python's floor-signed modulo (Int.fmod), and
a zero divisor raises ZeroDivisionError, modelled as none. -/
def select_next_speaker (step : Nat) (agents : List DialogueAgent) :
    Option Int :=
  if step % 2 = 0 then some 0
  else
    let d : Int := (agents.length : Int) - 1
    if d = 0 then none
    else some (((step / 2 : Nat) : Int).fmod d + 1)

/-- Embeds relevance_score_fn: converts a euclidean distance between
unit-normalised embeddings, written 1.0 minus the score divided by the
square root of 2 in the source, into a similarity. -/
noncomputable def relevance_score_fn (score : ℝ) : ℝ :=
  1 - score / Real.sqrt 2

/-- Folds a list of speaker-message pairs through receive, modelling a
sequence of receive calls on one agent. -/
def applyReceives (a : DialogueAgent) (msgs : List (String × String)) :
    DialogueAgent :=
  msgs.foldl (fun acc nm => acc.receive nm.1 nm.2) a

/-- Concrete agents used to instantiate theorems on closed inputs. -/
def agentA : DialogueAgent := DialogueAgent.init "Alice" "sysA" (fun _ _ => "hello")

def agentB : DialogueAgent := DialogueAgent.init "Bob" "sysB" (fun _ _ => "hi")

def storytellerW : DialogueAgent :=
  DialogueAgent.init "Dungeon Master" "sys0" (fun _ _ => "tale")

def harry : DialogueAgent := DialogueAgent.init "Harry Potter" "sys1" (fun _ _ => "h")

def ron : DialogueAgent := DialogueAgent.init "Ron Weasley" "sys2" (fun _ _ => "r")

def hermione : DialogueAgent :=
  DialogueAgent.init "Hermione Granger" "sys3" (fun _ _ => "g")

/-- A four-agent roster with the storyteller at index 0, as in the
notebook's simulation. -/
def fourAgents : List DialogueAgent := [storytellerW, harry, ron, hermione]

/-- A concrete two-agent simulator whose selection function always picks
index 0. -/
def simW : DialogueSimulator :=
  DialogueSimulator.init [agentA, agentB] (fun _ _ => some 0)

/-- Unfolding of step when selection yields an in-range index. -/
theorem step_eq_of_some (s : DialogueSimulator) (idx : Int)
    (speaker : DialogueAgent)
    (hsel : s.select_next_speaker s._step s.agents = some idx)
    (hget : pyGet s.agents idx = some speaker) :
    s.step =
      ({ s with
          agents := s.agents.map (fun a => a.receive speaker.name speaker.send),
          _step := s._step + 1 },
       some (speaker.name, speaker.send)) := by
  simp only [DialogueSimulator.step, hsel, hget]

/-- Unfolding of step when the chosen index is out of range. -/
theorem step_eq_of_none (s : DialogueSimulator) (idx : Int)
    (hsel : s.select_next_speaker s._step s.agents = some idx)
    (hget : pyGet s.agents idx = none) :
    s.step = (s, none) := by
  simp only [DialogueSimulator.step, hsel, hget]

/-- C1: when the selection function returns an index at which Python
list access succeeds, a single call to step returns the pair of the
selected speaker's name and the message its send produces, and appends
the entry formed from the speaker name, a colon-space separator, and
the message to every agent's transcript, the speaker's own included. -/
theorem C1_step_broadcasts (s : DialogueSimulator) (idx : Int)
    (speaker : DialogueAgent)
    (hsel : s.select_next_speaker s._step s.agents = some idx)
    (hget : pyGet s.agents idx = some speaker) :
    s.step =
      ({ s with
          agents := s.agents.map (fun a =>
            { a with message_history :=
                a.message_history ++ [speaker.name ++ ": " ++ speaker.send] }),
          _step := s._step + 1 },
       some (speaker.name, speaker.send)) :=
  step_eq_of_some s idx speaker hsel hget

/-- C1 witness: the two-agent simulator with the constant-0 selection
function satisfies the hypotheses, and step behaves as stated. -/
theorem C1_step_broadcasts_witness :
    simW.select_next_speaker simW._step simW.agents = some 0 ∧
    pyGet simW.agents 0 = some agentA ∧
    simW.step =
      ({ simW with
          agents := simW.agents.map (fun a =>
            { a with message_history :=
                a.message_history ++ [agentA.name ++ ": " ++ agentA.send] }),
          _step := simW._step + 1 },
       some (agentA.name, agentA.send)) :=
  ⟨rfl, rfl, C1_step_broadcasts simW 0 agentA rfl rfl⟩

/-- Casting floor-signed modulo of naturals back to natural modulo. -/
theorem natCast_fmod (m n : Nat) :
    ((m : Int)).fmod (n : Int) = ((m % n : Nat) : Int) := by
  rw [Int.fmod_eq_emod _ (Int.natCast_nonneg n), Int.natCast_mod]

/-- Closed form of the odd branch of select_next_speaker when the roster
has at least two agents. -/
theorem select_next_speaker_odd (step : Nat) (agents : List DialogueAgent)
    (hodd : ¬ step % 2 = 0) (hlen : 2 ≤ agents.length) :
    select_next_speaker step agents =
      some ((((step / 2) % (agents.length - 1) + 1 : Nat)) : Int) := by
  have hd : ((agents.length : Int) - 1) ≠ 0 := by omega
  have hcast : ((agents.length : Int) - 1) = ((agents.length - 1 : Nat) : Int) := by
    omega
  unfold select_next_speaker
  rw [if_neg hodd]
  simp only [hcast]
  rw [if_neg (by omega : ¬ ((agents.length - 1 : Nat) : Int) = 0)]
  rw [natCast_fmod]
  norm_num

/-- C6: when the selection function returns an index at which Python
list access raises IndexError, step fails before any mutation: it
returns none and the simulator state, the step counter and every
agent's transcript included, is unchanged. -/
theorem C6_step_invalid_index (s : DialogueSimulator) (idx : Int)
    (hsel : s.select_next_speaker s._step s.agents = some idx)
    (hget : pyGet s.agents idx = none) :
    s.step = (s, none) :=
  step_eq_of_none s idx hsel hget

/-- A one-agent simulator whose selection function returns the
out-of-range index 5. -/
def simBadIdx : DialogueSimulator :=
  DialogueSimulator.init [agentA] (fun _ _ => some 5)

/-- C6 witness: on the one-agent simulator whose selection function
returns 5, the hypotheses hold and step returns the unchanged state
with none. -/
theorem C6_step_invalid_index_witness :
    simBadIdx.select_next_speaker simBadIdx._step simBadIdx.agents = some 5 ∧
    pyGet simBadIdx.agents 5 = none ∧
    simBadIdx.step = (simBadIdx, none) :=
  ⟨rfl, rfl, C6_step_invalid_index simBadIdx 5 rfl rfl⟩

/-- C7 counterexample: the constructor applied to the empty agent list
succeeds and returns a simulator with zero agents and step counter 0,
instead of failing. -/
theorem C7_empty_ctor_counterexample :
    (DialogueSimulator.init [] (fun _ _ => some 0)).agents = [] ∧
    (DialogueSimulator.init [] (fun _ _ => some 0))._step = 0 :=
  ⟨rfl, rfl⟩

/-- C7 (amended): the constructor performs no validation: for every
agent list, the empty list included, it returns a simulator holding
exactly that list, with step counter 0 and the given selection
function. -/
theorem C7_ctor_no_validation (agents : List DialogueAgent)
    (f : Nat → List DialogueAgent → Option Int) :
    (DialogueSimulator.init agents f).agents = agents ∧
    (DialogueSimulator.init agents f)._step = 0 ∧
    (DialogueSimulator.init agents f).select_next_speaker = f :=
  ⟨rfl, rfl, rfl⟩

/-- C4 counterexample: with a single agent and step 1, the odd branch of
select_next_speaker divides by the agent count minus one, that is by
zero, raising ZeroDivisionError instead of returning an index. -/
theorem C4_singleton_counterexample :
    select_next_speaker 1 [agentA] = none := rfl

/-- C4 (amended): for every agent list with at least two agents and
every step value, select_next_speaker returns an index i with
0 <= i < the agent count. -/
theorem C4_select_in_range (step : Nat) (agents : List DialogueAgent)
    (hlen : 2 ≤ agents.length) :
    ∃ i : Int, select_next_speaker step agents = some i ∧
      0 ≤ i ∧ i < (agents.length : Int) := by
  by_cases h : step % 2 = 0
  · refine ⟨0, by simp [select_next_speaker, h], le_refl 0, by omega⟩
  · refine ⟨(((step / 2) % (agents.length - 1) + 1 : Nat) : Int),
      select_next_speaker_odd step agents h hlen, by omega, ?_⟩
    have hmod : (step / 2) % (agents.length - 1) < agents.length - 1 :=
      Nat.mod_lt _ (by omega)
    omega

/-- C4 witness: the amended statement instantiated on a two-agent
roster at step 1. -/
theorem C4_select_in_range_witness :
    2 ≤ ([agentA, agentB] : List DialogueAgent).length ∧
    ∃ i : Int, select_next_speaker 1 [agentA, agentB] = some i ∧
      0 ≤ i ∧ i < (([agentA, agentB] : List DialogueAgent).length : Int) :=
  ⟨by decide, C4_select_in_range 1 [agentA, agentB] (by decide)⟩

/-- C2: on the four-agent roster with the storyteller at index 0, the
policy produces the speaker-index sequence 0,1,0,2,0,3,0,1,0 for steps
0 through 8, and in general even steps select index 0 while odd steps
select the floor of step over 2, modulo 3, plus 1. -/
theorem C2_round_robin :
    ((List.range 9).map (fun t => select_next_speaker t fourAgents) =
      [some 0, some 1, some 0, some 2, some 0, some 3, some 0, some 1, some 0]) ∧
    (∀ step : Nat, select_next_speaker step fourAgents =
      some (if step % 2 = 0 then (0 : Int)
            else (((step / 2) % 3 + 1 : Nat) : Int))) := by
  constructor
  · decide
  · intro step
    by_cases h : step % 2 = 0
    · simp [select_next_speaker, h]
    · rw [select_next_speaker_odd step fourAgents h (by decide)]
      rw [if_neg h]
      rfl


/-- C5: every inject call, on every simulator state, increments the
step counter by exactly 1 and delivers the entry formed from the
injected name and message to every agent's transcript; and every
successful step call, one where selection and list access succeed,
also increments the step counter by exactly 1. -/
theorem C5_tick_increments (s : DialogueSimulator) (name message : String) :
    (s.inject name message)._step = s._step + 1 ∧
    (s.inject name message).agents = s.agents.map (fun a =>
      { a with message_history :=
          a.message_history ++ [name ++ ": " ++ message] }) ∧
    (∀ idx speaker, s.select_next_speaker s._step s.agents = some idx →
      pyGet s.agents idx = some speaker →
      ((s.step).1)._step = s._step + 1) := by
  refine ⟨rfl, rfl, fun idx speaker hsel hget => ?_⟩
  rw [step_eq_of_some s idx speaker hsel hget]

/-- C5 witness: the unconditional inject conclusions hold on both the
two-agent simulator and on the one-agent simulator with the failing
selection function, and the nested step-success hypotheses are
discharged concretely on the two-agent simulator. -/
theorem C5_tick_increments_witness :
    ((simW.inject "Dungeon Master" "quest")._step = simW._step + 1 ∧
     (simW.inject "Dungeon Master" "quest").agents = simW.agents.map (fun a =>
       { a with message_history :=
           a.message_history ++ ["Dungeon Master" ++ ": " ++ "quest"] }) ∧
     (∀ idx speaker, simW.select_next_speaker simW._step simW.agents = some idx →
       pyGet simW.agents idx = some speaker →
       ((simW.step).1)._step = simW._step + 1)) ∧
    ((simBadIdx.inject "Dungeon Master" "quest")._step = simBadIdx._step + 1 ∧
     (simBadIdx.inject "Dungeon Master" "quest").agents =
       simBadIdx.agents.map (fun a =>
         { a with message_history :=
             a.message_history ++ ["Dungeon Master" ++ ": " ++ "quest"] })) ∧
    (simW.select_next_speaker simW._step simW.agents = some 0 ∧
     pyGet simW.agents 0 = some agentA ∧
     ((simW.step).1)._step = simW._step + 1) :=
  ⟨C5_tick_increments simW "Dungeon Master" "quest",
   ⟨(C5_tick_increments simBadIdx "Dungeon Master" "quest").1,
    (C5_tick_increments simBadIdx "Dungeon Master" "quest").2.1⟩,
   rfl, rfl,
   (C5_tick_increments simW "Dungeon Master" "quest").2.2 0 agentA rfl rfl⟩

/-- A concrete simulator that has performed one prior inject, so its
step counter is 1. -/
def simAfterInject : DialogueSimulator :=
  (DialogueSimulator.init [agentA, agentB] (fun _ _ => some 0)).inject
    "Dungeon Master" "quest"

/-- C3 counterexample: after one inject the step counter is 1, and
reset leaves it at 1, not 0. -/
theorem C3_reset_counterexample :
    ¬ (simAfterInject.reset)._step = 0 := by decide

/-- C3 (amended): reset clears every agent's transcript back to the
initial one-element sentinel transcript, but leaves the step counter
unchanged rather than returning it to 0. -/
theorem C3_reset_amended (s : DialogueSimulator) :
    s.reset.agents = s.agents.map DialogueAgent.reset ∧
    (∀ a, a ∈ s.reset.agents →
      a.message_history = ["Here is the conversation so far."]) ∧
    s.reset._step = s._step := by
  refine ⟨rfl, ?_, rfl⟩
  intro a ha
  simp only [DialogueSimulator.reset, List.mem_map] at ha
  obtain ⟨b, _, rfl⟩ := ha
  rfl

/-- C3 witness: the amended statement instantiated on the simulator
that has performed one inject. -/
theorem C3_reset_amended_witness :
    simAfterInject.reset.agents = simAfterInject.agents.map DialogueAgent.reset ∧
    (∀ a, a ∈ simAfterInject.reset.agents →
      a.message_history = ["Here is the conversation so far."]) ∧
    simAfterInject.reset._step = simAfterInject._step :=
  C3_reset_amended simAfterInject

/-- C8: receive appends exactly the single entry formed from the name,
a colon-space separator, and the message to the end of the transcript,
growing it by one and leaving every previously stored entry unchanged
at its original position. -/
theorem C8_receive_appends (a : DialogueAgent) (name message : String) :
    (a.receive name message).message_history =
      a.message_history ++ [name ++ ": " ++ message] ∧
    (a.receive name message).message_history.length =
      a.message_history.length + 1 ∧
    (∀ i, i < a.message_history.length →
      (a.receive name message).message_history.get? i =
        a.message_history.get? i) := by
  refine ⟨rfl, by simp [DialogueAgent.receive], fun i hi => ?_⟩
  simp [DialogueAgent.receive, List.getElem?_append_left hi]

/-- C8 witness: receive on a concrete agent and concrete strings. -/
theorem C8_receive_appends_witness :
    (agentA.receive "Bob" "hi").message_history =
      agentA.message_history ++ ["Bob" ++ ": " ++ "hi"] ∧
    (agentA.receive "Bob" "hi").message_history.length =
      agentA.message_history.length + 1 ∧
    (∀ i, i < agentA.message_history.length →
      (agentA.receive "Bob" "hi").message_history.get? i =
        agentA.message_history.get? i) :=
  C8_receive_appends agentA "Bob" "hi"

/-- The transcript after a sequence of receive calls is the starting
transcript followed by one formatted entry per call, in order. -/
theorem applyReceives_history (msgs : List (String × String))
    (a : DialogueAgent) :
    (applyReceives a msgs).message_history =
      a.message_history ++ msgs.map (fun nm => nm.1 ++ ": " ++ nm.2) := by
  induction msgs generalizing a with
  | nil => simp [applyReceives]
  | cons m rest ih =>
    show (applyReceives (a.receive m.1 m.2) rest).message_history = _
    rw [ih]
    simp [DialogueAgent.receive]

/-- C10: a freshly constructed agent's transcript is exactly the
one-element sentinel list, reset restores that same list, and after any
sequence of n receive calls the transcript has length n + 1 with the
sentinel entry still first; in particular it is never empty.  Send is
embedded as a pure function of the agent because the source's send only
reads message_history, so it cannot modify the transcript. -/
theorem C10_transcript_invariant (name sys : String)
    (model : String → String → String) (msgs : List (String × String)) :
    (DialogueAgent.init name sys model).message_history =
      ["Here is the conversation so far."] ∧
    (∀ a : DialogueAgent,
      a.reset.message_history = ["Here is the conversation so far."]) ∧
    (applyReceives (DialogueAgent.init name sys model) msgs).message_history.length =
      msgs.length + 1 ∧
    (applyReceives (DialogueAgent.init name sys model) msgs).message_history.head? =
      some "Here is the conversation so far." ∧
    (applyReceives (DialogueAgent.init name sys model) msgs).message_history ≠ [] := by
  refine ⟨rfl, fun a => rfl, ?_, ?_, ?_⟩
  · rw [applyReceives_history]
    simp [DialogueAgent.init, DialogueAgent.reset, Nat.add_comm]
  · rw [applyReceives_history]
    simp [DialogueAgent.init, DialogueAgent.reset]
  · rw [applyReceives_history]
    simp [DialogueAgent.init, DialogueAgent.reset]

/-- C10 witness: the invariant instantiated on a concrete agent and one
received message. -/
theorem C10_transcript_invariant_witness :
    (DialogueAgent.init "Alice" "sysA" (fun _ _ => "hello")).message_history =
      ["Here is the conversation so far."] ∧
    (∀ a : DialogueAgent,
      a.reset.message_history = ["Here is the conversation so far."]) ∧
    (applyReceives (DialogueAgent.init "Alice" "sysA" (fun _ _ => "hello"))
        [("Bob", "hi")]).message_history.length = [("Bob", "hi")].length + 1 ∧
    (applyReceives (DialogueAgent.init "Alice" "sysA" (fun _ _ => "hello"))
        [("Bob", "hi")]).message_history.head? =
      some "Here is the conversation so far." ∧
    (applyReceives (DialogueAgent.init "Alice" "sysA" (fun _ _ => "hello"))
        [("Bob", "hi")]).message_history ≠ [] :=
  C10_transcript_invariant "Alice" "sysA" (fun _ _ => "hello") [("Bob", "hi")]

/-- C9: relevance_score_fn equals 1 minus the score divided by the
square root of 2; on distances between 0 and the square root of 2 the
result lies in the unit interval, distance 0 maps to similarity 1,
distance equal to the square root of 2 maps to similarity 0, and the
function is strictly decreasing. -/
theorem C9_relevance_score (score : ℝ) (h0 : 0 ≤ score)
    (h1 : score ≤ Real.sqrt 2) :
    relevance_score_fn score = 1 - score / Real.sqrt 2 ∧
    0 ≤ relevance_score_fn score ∧ relevance_score_fn score ≤ 1 ∧
    relevance_score_fn 0 = 1 ∧ relevance_score_fn (Real.sqrt 2) = 0 ∧
    StrictAnti relevance_score_fn := by
  have h2 : (0 : ℝ) < Real.sqrt 2 := Real.sqrt_pos.mpr (by norm_num)
  refine ⟨rfl, ?_, ?_, ?_, ?_, ?_⟩
  · have hx : score / Real.sqrt 2 ≤ 1 := (div_le_one h2).mpr h1
    simp only [relevance_score_fn]
    linarith
  · have hx : 0 ≤ score / Real.sqrt 2 := div_nonneg h0 h2.le
    simp only [relevance_score_fn]
    linarith
  · simp [relevance_score_fn]
  · simp only [relevance_score_fn]
    rw [div_self (ne_of_gt h2)]
    ring
  · intro a b hab
    simp only [relevance_score_fn, div_eq_mul_inv]
    have hx : a * (Real.sqrt 2)⁻¹ < b * (Real.sqrt 2)⁻¹ :=
      mul_lt_mul_of_pos_right hab (inv_pos.mpr h2)
    linarith

/-- C9 witness: the statement instantiated at distance 0. -/
theorem C9_relevance_score_witness :
    (0 : ℝ) ≤ 0 ∧ (0 : ℝ) ≤ Real.sqrt 2 ∧
    (relevance_score_fn 0 = 1 - 0 / Real.sqrt 2 ∧
     0 ≤ relevance_score_fn 0 ∧ relevance_score_fn 0 ≤ 1 ∧
     relevance_score_fn 0 = 1 ∧ relevance_score_fn (Real.sqrt 2) = 0 ∧
     StrictAnti relevance_score_fn) :=
  ⟨le_refl 0, Real.sqrt_nonneg 2,
    C9_relevance_score 0 (le_refl 0) (Real.sqrt_nonneg 2)⟩
